import Mathlib

/-
Shallow embedding of `weather.py` (PyWeatherMCP): a small MCP weather server
that persists a search history and a favorites list to a single JSON file
(`weather_memory.json`) and formats human-readable text answers.

Modelling conventions:

* Python floats (latitude/longitude, temperatures) are never computed with in
  this program; they are only stored and interpolated into f-strings.  They are
  therefore modelled by their printed form (`PyFloat := String`, the result of
  Python `str`): `40.0` becomes the token "40.0".
* The JSON file layer is modelled at the parsed level.  A `FileState` is either
  `missing` (os.path.exists is false), `unreadable` (the file exists but `open`
  raises, e.g. a permission error), `malformed` (the file opens but `json.load`
  raises), or `present d` (the file holds a JSON text that `json.load` parses
  to the document `d`).  `json.dump` followed by `json.load` is assumed to
  reproduce the document (fidelity of the third-party `json` library); the
  pretty-printing (`indent=2`) is a concrete rendering detail below this level
  of the model.
* Exceptions that the Python code does not catch are modelled by
  `Except LoadError`; the generic `except Exception: return None` of the HTTP
  fetcher is modelled by a total function into `Option`.
* The network is an external input: each tool takes the outcome of the HTTP
  request(s) it would issue as an explicit argument.
-/

set_option autoImplicit false

namespace PyWeatherMCP

/-- Python floats are carried around and printed, never computed with; they are
modelled by their `str` rendering. -/
abbrev PyFloat := String

/-- One entry of `memory["searches"]`.  `get_alerts` appends
`{"type": "alerts", "state": ..., "timestamp": ...}`; `get_forecast` appends
`{"type": "forecast", "location": ..., "latitude": ..., "longitude": ...,
"timestamp": ...}`.  These are the only writers of the list. -/
inductive SearchRecord where
  | alerts (state : String) (timestamp : String)
  | forecast (location : String) (latitude longitude : PyFloat) (timestamp : String)
  deriving DecidableEq, Repr

/-- One entry of `memory["favorites"]`, as appended by `save_favorite`. -/
structure FavoriteRecord where
  name : String
  latitude : PyFloat
  longitude : PyFloat
  added : String
  deriving DecidableEq, Repr

/-- The document stored in `weather_memory.json`. -/
structure MemoryDocument where
  searches : List SearchRecord
  favorites : List FavoriteRecord
  deriving DecidableEq, Repr

/-- State of the file `weather_memory.json` as `load_memory` can observe it. -/
inductive FileState where
  | missing
  | unreadable
  | malformed
  | present (doc : MemoryDocument)
  deriving DecidableEq, Repr

/-- Errors that escape `load_memory` uncaught: `open` raising on an existing
file, or `json.load` raising on unparseable contents. -/
inductive LoadError where
  | readFailed
  | parseFailed
  deriving DecidableEq, Repr

/-- Embeds `load_memory`: if `os.path.exists(MEMORY_FILE)` the file is opened
and parsed (either step may raise, uncaught); otherwise the default document
`{"searches": [], "favorites": []}` is returned. -/
def load_memory : FileState → Except LoadError MemoryDocument
  | .missing => .ok { searches := [], favorites := [] }
  | .unreadable => .error .readFailed
  | .malformed => .error .parseFailed
  | .present d => .ok d

/-- Embeds `save_memory`: `json.dump(data, f, indent=2)` overwrites the file
with the serialization of `data`, so afterwards the file parses back to
exactly `data`. -/
def save_memory (data : MemoryDocument) : FileState :=
  .present data

/-- Outcome of one `httpx` GET as seen inside `make_nws_request`'s `try` block:
a 2xx response with a parseable JSON body of shape `α`, or one of the failure
modes (the request raising, `raise_for_status` raising on a non-2xx status, or
`response.json()` raising on a malformed body). -/
inductive HttpOutcome (α : Type) where
  | success (body : α)
  | networkError
  | httpStatusError
  | malformedBody
  deriving DecidableEq, Repr

/-- Embeds `make_nws_request`: the bare `except Exception: return None`
collapses every failure mode to `None`; only a successful parse returns the
body. -/
def make_nws_request {α : Type} : HttpOutcome α → Option α
  | .success body => some body
  | .networkError => none
  | .httpStatusError => none
  | .malformedBody => none

/-- The `properties` member of one element of the alerts response's `features`
list: the only part of a feature the code reads, via `props.get(...)` with
fallbacks, so each field may be absent. -/
structure AlertProps where
  event : Option String
  areaDesc : Option String
  severity : Option String
  description : Option String
  deriving DecidableEq, Repr

/-- Body of a successful alerts fetch.  `features := none` models a JSON
object without a `"features"` key (the code's `"features" not in data` test);
a falsy (empty) object also lacks the key and lands in the same branch. -/
structure AlertsData where
  features : Option (List AlertProps)
  deriving DecidableEq, Repr

/-- One alert block, the triple-quoted f-string built per feature:
missing fields render as "Unknown" (or "No description"). -/
def alertBlock (props : AlertProps) : String :=
  "\nEvent: " ++ props.event.getD "Unknown"
    ++ "\nArea: " ++ props.areaDesc.getD "Unknown"
    ++ "\nSeverity: " ++ props.severity.getD "Unknown"
    ++ "\nDescription: " ++ props.description.getD "No description" ++ "\n"

/-- Embeds the tool `get_alerts(state)`.  It first appends a history record
and persists it, then issues the fetch (whose outcome, already collapsed to
`Option` by `make_nws_request`, is the `resp` argument) and formats the
answer.  `now` is `datetime.now().isoformat()`. -/
def get_alerts (fs : FileState) (state now : String) (resp : Option AlertsData) :
    Except LoadError (FileState × String) :=
  match load_memory fs with
  | .error e => .error e
  | .ok memory =>
    let memory2 : MemoryDocument :=
      { memory with searches := memory.searches ++ [SearchRecord.alerts state now] }
    let fs2 := save_memory memory2
    match resp with
    | none => .ok (fs2, "Unable to fetch alerts")
    | some data =>
      match data.features with
      | none => .ok (fs2, "Unable to fetch alerts")
      | some [] => .ok (fs2, "No active alerts for " ++ state)
      | some feats =>
        .ok (fs2, "[Weather MCP Server] Alerts for " ++ state ++ "\n"
          ++ String.intercalate "\n---\n" (feats.map alertBlock))

/-- The single member of the points response the code reads:
`points_data["properties"]["forecast"]`, the forecast-feed URL. -/
structure PointsData where
  forecastUrl : String
  deriving DecidableEq, Repr

/-- One element of `forecast_data["properties"]["periods"]`; every field is
read unconditionally.  Numeric fields are modelled by their printed form. -/
structure ForecastPeriod where
  name : String
  temperature : String
  temperatureUnit : String
  windSpeed : String
  windDirection : String
  detailedForecast : String
  deriving DecidableEq, Repr

/-- Body of a successful forecast fetch: the `periods` list under
`properties`. -/
structure ForecastData where
  periods : List ForecastPeriod
  deriving DecidableEq, Repr

/-- One forecast block, the triple-quoted f-string built per period. -/
def forecastBlock (p : ForecastPeriod) : String :=
  "\n" ++ p.name ++ ":\nTemperature: " ++ p.temperature ++ "°" ++ p.temperatureUnit
    ++ "\nWind: " ++ p.windSpeed ++ " " ++ p.windDirection
    ++ "\nForecast: " ++ p.detailedForecast ++ "\n"

/-- Embeds the tool `get_forecast(latitude, longitude, location_name)`.  A
history record is appended and persisted first; then two dependent fetches run
(their outcomes are the `pointsResp` and `forecastResp` arguments), each
failure short-circuiting with its fixed message. -/
def get_forecast (fs : FileState) (latitude longitude : PyFloat)
    (location_name : String) (now : String) (pointsResp : HttpOutcome PointsData)
    (forecastResp : HttpOutcome ForecastData) :
    Except LoadError (FileState × String) :=
  match load_memory fs with
  | .error e => .error e
  | .ok memory =>
    let memory2 : MemoryDocument :=
      { memory with searches := memory.searches
          ++ [SearchRecord.forecast location_name latitude longitude now] }
    let fs2 := save_memory memory2
    match make_nws_request pointsResp with
    | none => .ok (fs2, "Unable to fetch forecast data")
    | some _pointsData =>
      match make_nws_request forecastResp with
      | none => .ok (fs2, "Unable to fetch forecast")
      | some forecastData =>
        .ok (fs2, "[Weather MCP Server] Forecast for " ++ location_name ++ "\n"
          ++ String.intercalate "\n" ((forecastData.periods.take 5).map forecastBlock))

/-- The duplicate check of `save_favorite`: the for-loop returns early on the
first record whose `name` equals the argument, i.e. when some record matches. -/
def favoriteExists (favs : List FavoriteRecord) (name : String) : Bool :=
  favs.any (fun fav => fav.name == name)

/-- Embeds the tool `save_favorite(name, latitude, longitude)`: linear scan on
name; on a hit, return the "already saved" message without writing the file;
otherwise append a record (with `added := now`) and persist. -/
def save_favorite (fs : FileState) (name : String) (latitude longitude : PyFloat)
    (now : String) : Except LoadError (FileState × String) :=
  match load_memory fs with
  | .error e => .error e
  | .ok memory =>
    if favoriteExists memory.favorites name then
      .ok (fs, "Location \x27" ++ name ++ "\x27 already saved as favorite")
    else
      let memory2 : MemoryDocument :=
        { memory with favorites := memory.favorites
            ++ [{ name := name, latitude := latitude, longitude := longitude,
                  added := now }] }
      .ok (save_memory memory2,
        "[Weather MCP Server] Saved \x27" ++ name ++ "\x27 to favorites")

/-- One bulleted favorites line: `f"• {name} ({latitude}, {longitude})"`. -/
def favoriteLine (fav : FavoriteRecord) : String :=
  "• " ++ fav.name ++ " (" ++ fav.latitude ++ ", " ++ fav.longitude ++ ")"

/-- Embeds the tool `get_favorites()`. -/
def get_favorites (fs : FileState) : Except LoadError String :=
  match load_memory fs with
  | .error e => .error e
  | .ok memory =>
    if memory.favorites.isEmpty then
      .ok "[Weather MCP Server] No favorite locations saved yet"
    else
      .ok (String.intercalate "\n"
        ("[Weather MCP Server] Your Favorite Locations:\n"
          :: memory.favorites.map favoriteLine))

/-- Reformatting of a stored timestamp:
`datetime.fromisoformat(ts).strftime("%Y-%m-%d %H:%M")`.  On the strings this
program stores (`datetime.now().isoformat()`, i.e.
`YYYY-MM-DDTHH:MM:SS.ffffff`) this keeps the date, replaces the `T` by a
space and truncates after the minutes. -/
def formatTimestamp (ts : String) : String :=
  ts.take 10 ++ " " ++ (ts.drop 11).take 5

/-- One bulleted history line; for forecast records the code reads
`search.get("location", "Unknown")`, and records written by this program
always carry a location. -/
def renderSearch : SearchRecord → String
  | .alerts st ts => "• " ++ formatTimestamp ts ++ ": Alerts for " ++ st
  | .forecast loc _ _ ts => "• " ++ formatTimestamp ts ++ ": Forecast for " ++ loc

/-- Semantics of the Python slice `xs[-limit:]` for an arbitrary integer
`limit`: a negative start index `-limit` is clamped to `max(0, len - limit)`,
while a non-negative one (i.e. `limit <= 0`) starts at `min(-limit, len)`.
In particular `limit = 0` yields the whole list. -/
def pySliceLast {α : Type} (xs : List α) (limit : Int) : List α :=
  if limit > 0 then xs.drop (xs.length - limit.toNat)
  else xs.drop (-limit).toNat

/-- The rendered history entries: `reversed(memory["searches"][-limit:])`,
one line per record. -/
def historyLines (searches : List SearchRecord) (limit : Int) : List String :=
  (pySliceLast searches limit).reverse.map renderSearch

/-- Embeds the tool `get_history(limit=10)`. -/
def get_history (fs : FileState) (limit : Int) : Except LoadError String :=
  match load_memory fs with
  | .error e => .error e
  | .ok memory =>
    if memory.searches.isEmpty then
      .ok "[Weather MCP Server] No search history yet"
    else
      .ok (String.intercalate "\n"
        ("[Weather MCP Server] Recent Searches:\n" :: historyLines memory.searches limit))

/-- Embeds the tool `clear_history()`: empty the searches list, keep
favorites, persist. -/
def clear_history (fs : FileState) : Except LoadError (FileState × String) :=
  match load_memory fs with
  | .error e => .error e
  | .ok memory =>
    let memory2 : MemoryDocument := { memory with searches := [] }
    .ok (save_memory memory2, "[Weather MCP Server] Search history cleared")

/-- C1: for every state code and every fetch outcome, `get_alerts` on a
loadable store appends exactly one alerts `SearchRecord` (with the given state
and timestamp) to the searches list and persists the updated document; the
persisted store is the same whatever the fetch returns, so the record is
present regardless of fetch success or failure, and favorites are untouched. -/
theorem get_alerts_records_search (fs : FileState) (d : MemoryDocument)
    (state now : String) (hload : load_memory fs = Except.ok d)
    (resp : Option AlertsData) :
    (get_alerts fs state now resp).map Prod.fst
      = Except.ok (FileState.present
          { searches := d.searches ++ [SearchRecord.alerts state now],
            favorites := d.favorites }) := by
  obtain ⟨ds, df⟩ := d
  cases resp with
  | none => simp [get_alerts, hload, save_memory, Except.map]
  | some ad =>
    obtain ⟨features⟩ := ad
    cases features with
    | none => simp [get_alerts, hload, save_memory, Except.map]
    | some feats =>
      cases feats with
      | nil => simp [get_alerts, hload, save_memory, Except.map]
      | cons p ps => simp [get_alerts, hload, save_memory, Except.map]

/-- Witness for C1 at a concrete input: starting from a missing store file and
a failed fetch, the persisted store holds exactly the one alerts record. -/
theorem get_alerts_records_search_witness :
    (get_alerts FileState.missing "CA" "2025-01-01T00:00:00" none).map Prod.fst
      = Except.ok (FileState.present
          { searches := [SearchRecord.alerts "CA" "2025-01-01T00:00:00"],
            favorites := [] }) :=
  get_alerts_records_search FileState.missing { searches := [], favorites := [] }
    "CA" "2025-01-01T00:00:00" rfl none

/-- C2: `save_favorite` is idempotent on name.  Starting from a loadable store
with no favorite named `name`, the first call appends one record with the
first coordinates and reports it saved; the second call (any other
coordinates) returns the "already saved" message and leaves the store exactly
as the first call wrote it; the resulting favorites list holds exactly one
record named `name`, carrying the first coordinates. -/
theorem save_favorite_idempotent_on_name (fs : FileState) (d : MemoryDocument)
    (name : String) (lat1 lon1 lat2 lon2 : PyFloat) (now1 now2 : String)
    (hload : load_memory fs = Except.ok d)
    (hfresh : ∀ fav ∈ d.favorites, fav.name ≠ name) :
    save_favorite fs name lat1 lon1 now1
      = Except.ok (FileState.present
          { searches := d.searches,
            favorites := d.favorites
              ++ [{ name := name, latitude := lat1, longitude := lon1, added := now1 }] },
          "[Weather MCP Server] Saved \x27" ++ name ++ "\x27 to favorites")
  ∧ save_favorite (FileState.present
        { searches := d.searches,
          favorites := d.favorites
            ++ [{ name := name, latitude := lat1, longitude := lon1, added := now1 }] })
        name lat2 lon2 now2
      = Except.ok (FileState.present
          { searches := d.searches,
            favorites := d.favorites
              ++ [{ name := name, latitude := lat1, longitude := lon1, added := now1 }] },
          "Location \x27" ++ name ++ "\x27 already saved as favorite")
  ∧ (d.favorites
        ++ [({ name := name, latitude := lat1, longitude := lon1, added := now1 }
              : FavoriteRecord)]).filter (fun fav => fav.name == name)
      = [({ name := name, latitude := lat1, longitude := lon1, added := now1 }
            : FavoriteRecord)] := by
  obtain ⟨ds, df⟩ := d
  simp only [] at hfresh
  have hex : favoriteExists df name = false := by
    simp only [favoriteExists, List.any_eq_false, beq_iff_eq]
    exact hfresh
  refine ⟨?_, ?_, ?_⟩
  · simp [save_favorite, hload, hex, save_memory]
  · simp [save_favorite, load_memory, favoriteExists]
  · rw [List.filter_append]
    have hnil : df.filter (fun fav => fav.name == name) = [] := by
      simp only [List.filter_eq_nil_iff, beq_iff_eq]
      exact hfresh
    simp [hnil]

/-- Witness for C2 at a concrete input: saving "Home" twice with different
coordinates on an initially missing store keeps only the first coordinates. -/
theorem save_favorite_idempotent_on_name_witness :
    save_favorite FileState.missing "Home" "40.0" "-75.0" "t1"
      = Except.ok (FileState.present
          { searches := [],
            favorites := [{ name := "Home", latitude := "40.0", longitude := "-75.0",
                            added := "t1" }] },
          "[Weather MCP Server] Saved \x27Home\x27 to favorites")
  ∧ save_favorite (FileState.present
        { searches := [],
          favorites := [{ name := "Home", latitude := "40.0", longitude := "-75.0",
                          added := "t1" }] }) "Home" "41.5" "-70.0" "t2"
      = Except.ok (FileState.present
          { searches := [],
            favorites := [{ name := "Home", latitude := "40.0", longitude := "-75.0",
                            added := "t1" }] },
          "Location \x27Home\x27 already saved as favorite")
  ∧ ([] ++ [{ name := "Home", latitude := "40.0", longitude := "-75.0",
              added := "t1" }] : List FavoriteRecord).filter (fun fav => fav.name == "Home")
      = [{ name := "Home", latitude := "40.0", longitude := "-75.0", added := "t1" }] :=
  save_favorite_idempotent_on_name FileState.missing { searches := [], favorites := [] }
    "Home" "40.0" "-75.0" "41.5" "-70.0" "t1" "t2" rfl (by simp)

/-- C3 counterexample: the claim quantifies over every integer limit, but with
`limit = 0` the slice `searches[-0:]` is the whole list, so a single-record
history yields one rendered entry, not at most zero. -/
theorem get_history_limit_zero_violates_bound :
    ¬ (historyLines [SearchRecord.alerts "CA" "2025-01-01T00:00:00"] 0).length
        ≤ (0 : Int).toNat := by
  decide

/-- C3 (amended to positive limits): for every limit N ≥ 1 and every store
document, `get_history` renders at most N entries, namely the last N stored
records in reverse storage order (most-recent-first); on a nonempty history
the returned text is the header followed by exactly those lines. -/
theorem get_history_limit_bound (d : MemoryDocument) (N : Int) (hN : 1 ≤ N) :
    (historyLines d.searches N).length ≤ N.toNat
  ∧ historyLines d.searches N
      = (d.searches.drop (d.searches.length - N.toNat)).reverse.map renderSearch
  ∧ (d.searches ≠ [] →
      get_history (FileState.present d) N
        = Except.ok (String.intercalate "\n"
            ("[Weather MCP Server] Recent Searches:\n" :: historyLines d.searches N))) := by
  obtain ⟨ds, df⟩ := d
  have hpos : N > 0 := by omega
  refine ⟨?_, ?_, ?_⟩
  · simp only [historyLines, pySliceLast, if_pos hpos, List.length_map,
      List.length_reverse, List.length_drop]
    omega
  · simp [historyLines, pySliceLast, if_pos hpos]
  · intro hne
    simp [get_history, load_memory, hne]

/-- Witness for C3 at a concrete input: with limit 10 a two-record history
renders both records, newest first. -/
theorem get_history_limit_bound_witness :
    (historyLines [SearchRecord.alerts "CA" "2025-01-01T00:00:00"] 10).length ≤ (10 : Int).toNat
  ∧ historyLines [SearchRecord.alerts "CA" "2025-01-01T00:00:00"] 10
      = (([SearchRecord.alerts "CA" "2025-01-01T00:00:00"].drop
          ([SearchRecord.alerts "CA" "2025-01-01T00:00:00"].length - (10 : Int).toNat)).reverse.map
            renderSearch)
  ∧ ([SearchRecord.alerts "CA" "2025-01-01T00:00:00"] ≠ ([] : List SearchRecord) →
      get_history (FileState.present
          { searches := [SearchRecord.alerts "CA" "2025-01-01T00:00:00"], favorites := [] }) 10
        = Except.ok (String.intercalate "\n"
            ("[Weather MCP Server] Recent Searches:\n"
              :: historyLines [SearchRecord.alerts "CA" "2025-01-01T00:00:00"] 10))) :=
  get_history_limit_bound
    { searches := [SearchRecord.alerts "CA" "2025-01-01T00:00:00"], favorites := [] }
    10 (by decide)

/-- C4: `clear_history` on a loadable store persists a document with an empty
searches list and the favorites list unchanged, and returns its fixed
message; `get_history` on the persisted store then returns the fixed
empty-history message, for every limit. -/
theorem clear_history_empties_searches (fs : FileState) (d : MemoryDocument)
    (hload : load_memory fs = Except.ok d) (N : Int) :
    clear_history fs
      = Except.ok (FileState.present { searches := [], favorites := d.favorites },
          "[Weather MCP Server] Search history cleared")
  ∧ get_history (FileState.present { searches := [], favorites := d.favorites }) N
      = Except.ok "[Weather MCP Server] No search history yet" := by
  obtain ⟨ds, df⟩ := d
  constructor
  · simp [clear_history, hload, save_memory]
  · simp [get_history, load_memory]

/-- Witness for C4 at a concrete input: clearing a one-record history with one
favorite keeps the favorite and makes `get_history` report the empty
message. -/
theorem clear_history_empties_searches_witness :
    clear_history (FileState.present
        { searches := [SearchRecord.alerts "CA" "2025-01-01T00:00:00"],
          favorites := [{ name := "Home", latitude := "40.0", longitude := "-75.0",
                          added := "t" }] })
      = Except.ok (FileState.present
          { searches := [],
            favorites := [{ name := "Home", latitude := "40.0", longitude := "-75.0",
                            added := "t" }] },
          "[Weather MCP Server] Search history cleared")
  ∧ get_history (FileState.present
        { searches := [],
          favorites := [{ name := "Home", latitude := "40.0", longitude := "-75.0",
                          added := "t" }] }) 10
      = Except.ok "[Weather MCP Server] No search history yet" :=
  clear_history_empties_searches
    (FileState.present
      { searches := [SearchRecord.alerts "CA" "2025-01-01T00:00:00"],
        favorites := [{ name := "Home", latitude := "40.0", longitude := "-75.0",
                        added := "t" }] })
    { searches := [SearchRecord.alerts "CA" "2025-01-01T00:00:00"],
      favorites := [{ name := "Home", latitude := "40.0", longitude := "-75.0",
                      added := "t" }] } rfl 10

/-- C10: with `limit = 0` the Python slice `searches[-0:]` is `searches[0:]`,
the entire list, so `get_history` renders every stored record
(most-recent-first), not at most zero entries. -/
theorem get_history_limit_zero_returns_all (d : MemoryDocument)
    (hne : d.searches ≠ []) :
    historyLines d.searches 0 = d.searches.reverse.map renderSearch
  ∧ get_history (FileState.present d) 0
      = Except.ok (String.intercalate "\n"
          ("[Weather MCP Server] Recent Searches:\n"
            :: d.searches.reverse.map renderSearch)) := by
  obtain ⟨ds, df⟩ := d
  have hall : historyLines ds 0 = ds.reverse.map renderSearch := by
    simp [historyLines, pySliceLast]
  refine ⟨hall, ?_⟩
  simp only [] at hne
  simp [get_history, load_memory, hne, hall]

/-- Witness for C10 at a concrete input: a two-record history is rendered in
full (both entries, newest first) when the limit is zero. -/
theorem get_history_limit_zero_returns_all_witness :
    historyLines [SearchRecord.alerts "CA" "2025-01-01T00:00:00",
        SearchRecord.alerts "NY" "2025-01-02T00:00:00"] 0
      = ([SearchRecord.alerts "CA" "2025-01-01T00:00:00",
          SearchRecord.alerts "NY" "2025-01-02T00:00:00"].reverse.map renderSearch)
  ∧ get_history (FileState.present
        { searches := [SearchRecord.alerts "CA" "2025-01-01T00:00:00",
            SearchRecord.alerts "NY" "2025-01-02T00:00:00"], favorites := [] }) 0
      = Except.ok (String.intercalate "\n"
          ("[Weather MCP Server] Recent Searches:\n"
            :: [SearchRecord.alerts "CA" "2025-01-01T00:00:00",
                SearchRecord.alerts "NY" "2025-01-02T00:00:00"].reverse.map renderSearch)) :=
  get_history_limit_zero_returns_all
    { searches := [SearchRecord.alerts "CA" "2025-01-01T00:00:00",
        SearchRecord.alerts "NY" "2025-01-02T00:00:00"], favorites := [] }
    (by decide)

/-- C5: the text returned by `get_alerts` on a loadable store follows a
three-way case analysis on the fetched response: absent response or response
without a features list gives "Unable to fetch alerts"; an empty features
list gives "No active alerts for {state}"; a nonempty one gives one block per
feature joined by the separator, each block reading event, area, severity and
description with "Unknown"/"No description" substituted for missing fields. -/
theorem get_alerts_output_policy (fs : FileState) (d : MemoryDocument)
    (state now : String) (hload : load_memory fs = Except.ok d) :
    (get_alerts fs state now none).map Prod.snd = Except.ok "Unable to fetch alerts"
  ∧ (∀ ad : AlertsData, ad.features = none →
      (get_alerts fs state now (some ad)).map Prod.snd
        = Except.ok "Unable to fetch alerts")
  ∧ (get_alerts fs state now (some { features := some [] })).map Prod.snd
      = Except.ok ("No active alerts for " ++ state)
  ∧ (∀ (p : AlertProps) (ps : List AlertProps),
      (get_alerts fs state now (some { features := some (p :: ps) })).map Prod.snd
        = Except.ok ("[Weather MCP Server] Alerts for " ++ state ++ "\n"
            ++ String.intercalate "\n---\n" ((p :: ps).map alertBlock)))
  ∧ (∀ e a sv desc : String,
      alertBlock { event := some e, areaDesc := some a, severity := some sv,
                   description := some desc }
        = "\nEvent: " ++ e ++ "\nArea: " ++ a ++ "\nSeverity: " ++ sv
            ++ "\nDescription: " ++ desc ++ "\n")
  ∧ alertBlock { event := none, areaDesc := none, severity := none, description := none }
      = "\nEvent: Unknown\nArea: Unknown\nSeverity: Unknown\nDescription: No description\n" := by
  refine ⟨?_, ?_, ?_, ?_, ?_, ?_⟩
  · simp [get_alerts, hload, Except.map]
  · intro ad hf
    obtain ⟨features⟩ := ad
    simp only [] at hf
    subst hf
    simp [get_alerts, hload, Except.map]
  · simp [get_alerts, hload, Except.map]
  · intro p ps
    simp [get_alerts, hload, Except.map]
  · intro e a sv desc
    simp [alertBlock]
  · simp [alertBlock]

/-- Witness for C5 at a concrete input: from a missing store, an absent
response yields "Unable to fetch alerts" and an empty features list yields
"No active alerts for CA". -/
theorem get_alerts_output_policy_witness :
    (get_alerts FileState.missing "CA" "t" none).map Prod.snd
      = Except.ok "Unable to fetch alerts"
  ∧ (get_alerts FileState.missing "CA" "t" (some { features := some [] })).map Prod.snd
      = Except.ok ("No active alerts for " ++ "CA") :=
  ⟨(get_alerts_output_policy FileState.missing { searches := [], favorites := [] }
      "CA" "t" rfl).1,
   (get_alerts_output_policy FileState.missing { searches := [], favorites := [] }
      "CA" "t" rfl).2.2.1⟩

/-- C6: `make_nws_request` maps every non-success outcome (network exception,
non-2xx status, malformed body) to `none` — it is a total function, so nothing
is raised, and all failure causes are indistinguishable to callers; and on a
loadable store, a network exception on the first fetch makes `get_forecast`
return the fixed string "Unable to fetch forecast data" (a normal `ok`
result, not an error). -/
theorem fetch_errors_collapse {α : Type} (o : HttpOutcome α)
    (ho : ∀ b : α, o ≠ HttpOutcome.success b) (fs : FileState) (d : MemoryDocument)
    (lat lon locName now : String) (hload : load_memory fs = Except.ok d)
    (fo : HttpOutcome ForecastData) :
    make_nws_request o = none
  ∧ (get_forecast fs lat lon locName now HttpOutcome.networkError fo).map Prod.snd
      = Except.ok "Unable to fetch forecast data" := by
  constructor
  · cases o with
    | success b => exact absurd rfl (ho b)
    | networkError => rfl
    | httpStatusError => rfl
    | malformedBody => rfl
  · obtain ⟨ds, df⟩ := d
    simp [get_forecast, hload, make_nws_request, Except.map]

/-- Witness for C6 at a concrete input: a network error is collapsed to `none`
and, from a missing store, `get_forecast` answers the fixed message. -/
theorem fetch_errors_collapse_witness :
    make_nws_request (HttpOutcome.networkError : HttpOutcome PointsData) = none
  ∧ (get_forecast FileState.missing "40.0" "-75.0" "Home" "t"
        HttpOutcome.networkError HttpOutcome.networkError).map Prod.snd
      = Except.ok "Unable to fetch forecast data" :=
  fetch_errors_collapse (HttpOutcome.networkError : HttpOutcome PointsData)
    (fun _ h => HttpOutcome.noConfusion h) FileState.missing
    { searches := [], favorites := [] } "40.0" "-75.0" "Home" "t" rfl
    HttpOutcome.networkError

/-- C7 counterexample: an existing-but-unreadable store file does not yield
the default empty document — `open` raises and `load_memory` propagates the
failure instead of returning `{searches: [], favorites: []}`. -/
theorem load_memory_unreadable_not_default :
    load_memory FileState.unreadable
      ≠ Except.ok { searches := [], favorites := [] } := by
  simp [load_memory]

/-- C7 (amended): `load_memory` returns the default empty document only when
the file is missing; an existing file that cannot be opened propagates the
read failure and a malformed existing file propagates the parse failure, both
unhandled; `save_memory doc` overwrites the file so that it holds exactly
`doc` (whose pretty-printed JSON is the concrete file text). -/
theorem load_save_error_policy :
    load_memory FileState.missing = Except.ok { searches := [], favorites := [] }
  ∧ load_memory FileState.unreadable = Except.error LoadError.readFailed
  ∧ load_memory FileState.malformed = Except.error LoadError.parseFailed
  ∧ ∀ d : MemoryDocument, save_memory d = FileState.present d := by
  exact ⟨rfl, rfl, rfl, fun d => rfl⟩

/-- C8 counterexample: on an empty favorites list `get_favorites` does not
return the bare string "No favorite locations saved yet" — its fixed message
carries the "[Weather MCP Server] " prefix. -/
theorem get_favorites_empty_not_bare_string :
    get_favorites (FileState.present { searches := [], favorites := [] })
      ≠ Except.ok "No favorite locations saved yet" := by
  simp [get_favorites, load_memory]

/-- C8 (amended): on an empty favorites list `get_favorites` returns the exact
fixed string "[Weather MCP Server] No favorite locations saved yet"; with the
single favorite {name: "Home", latitude: 40.0, longitude: -75.0} it returns
the header line followed by the bulleted line "• Home (40.0, -75.0)". -/
theorem get_favorites_scenarios :
    get_favorites (FileState.present { searches := [], favorites := [] })
      = Except.ok "[Weather MCP Server] No favorite locations saved yet"
  ∧ get_favorites (FileState.present
        { searches := [],
          favorites := [{ name := "Home", latitude := "40.0", longitude := "-75.0",
                          added := "2025-01-01T00:00:00" }] })
      = Except.ok ("[Weather MCP Server] Your Favorite Locations:\n"
          ++ "\n" ++ "• Home (40.0, -75.0)") := by
  constructor
  · rfl
  · rfl

/-- C9: loading a well-formed stored document and saving it straight back is
a no-op on the document contents: the loaded document has exactly the stored
searches and favorites lists, and saving it reproduces the same file
contents. -/
theorem save_load_roundtrip (d : MemoryDocument) :
    ∃ d' : MemoryDocument,
      load_memory (FileState.present d) = Except.ok d'
      ∧ save_memory d' = FileState.present d
      ∧ d'.searches = d.searches ∧ d'.favorites = d.favorites :=
  ⟨d, rfl, rfl, rfl, rfl⟩

end PyWeatherMCP
